import Mathlib

/-!
Shallow embedding of the chat session state machine of the
`ChatInterface` React component (outward-bound-chat-fe).

The source component keeps four pieces of state (`messages`,
`inputMessage`, `isLoading`, `isServerAwake`) and performs two effects:
a one-shot readiness probe `wakeUpServer` (GET /ping) and the submission
cycle `handleSendMessage` (POST /chat).  Asynchrony is modelled by
passing the outcome of each network call as an explicit parameter;
timestamps (`new Date()`) are explicit `Nat` instants.
-/

/-- Message.sender is the union type 'user' | 'ai' in the source. -/
inductive Sender where
  | user
  | ai
deriving DecidableEq, Repr

/-- The Message interface: text, sender, timestamp (an instant). -/
structure Message where
  text : String
  sender : Sender
  timestamp : Nat
deriving DecidableEq, Repr

/-- Component state: messages, inputMessage, isLoading, isServerAwake. -/
structure ChatState where
  messages : List Message
  inputMessage : String
  isLoading : Bool
  isServerAwake : Bool
deriving DecidableEq, Repr

/-- Initial state on mount: useState([]), useState(''), useState(false),
useState(false). -/
def initState : ChatState := ⟨[], "", false, false⟩

/-- API_URL = process.env.REACT_APP_API_URL || 'http://localhost:3001'.
The environment variable is `none` when unset. -/
def API_URL (env : Option String) : String :=
  env.getD "http://localhost:3001"

/-- A JSON value that the `answer` field of the /chat response body may
hold (enough structure to model JavaScript truthiness of the field). -/
inductive JsValue where
  | jnull
  | jbool (b : Bool)
  | jnum (n : Int)
  | jstr (s : String)
deriving DecidableEq, Repr

/-- JavaScript truthiness: null, false, 0 and "" are falsy. -/
def jsTruthy : JsValue → Bool
  | JsValue.jnull => false
  | JsValue.jbool b => b
  | JsValue.jnum n => n != 0
  | JsValue.jstr s => s != ""

/-- The text a JSON value contributes when stored into Message.text. -/
def jsDisplay : JsValue → String
  | JsValue.jnull => "null"
  | JsValue.jbool b => if b then "true" else "false"
  | JsValue.jnum n => toString n
  | JsValue.jstr s => s

/-- Outcome of the fetch to POST /chat, as seen by the continuation of
`handleSendMessage`:
* `networkError` — the fetch promise rejects;
* `httpError` — the response arrives with `response.ok` false (non-2xx);
* `badJson` — 2xx but `response.json()` rejects;
* `ok ans` — 2xx with a JSON object body whose `answer` field is `ans`
  (`none` when the field is absent). -/
inductive ChatOutcome where
  | networkError
  | httpError
  | badJson
  | ok (ans : Option JsValue)
deriving DecidableEq, Repr

/-- Outcomes that land in the catch block of `handleSendMessage`. -/
def ChatOutcome.isFailure : ChatOutcome → Bool
  | ChatOutcome.ok _ => false
  | _ => true

/-- The JSON body sent to POST /chat: JSON.stringify({question}). -/
structure ChatRequestBody where
  question : String
deriving DecidableEq, Repr

/-- The outbound request issued by `handleSendMessage`. -/
structure ChatRequest where
  url : String
  method : String
  contentType : String
  body : ChatRequestBody
deriving DecidableEq, Repr

/-- Result of a whole `handleSendMessage` cycle: the final component
state, the requests issued, and the console log entries produced. -/
structure SendResult where
  state : ChatState
  requests : List ChatRequest
  logs : List String
deriving DecidableEq, Repr

/-- JavaScript String.prototype.trim(): drop leading and trailing
whitespace (modelled on the underlying character list so that it
evaluates by kernel reduction). -/
def jsTrim (s : String) : String :=
  String.mk
    (((s.data.dropWhile Char.isWhitespace).reverse.dropWhile
        Char.isWhitespace).reverse)

/-- The synchronous part of `handleSendMessage`, up to and including the
dispatch of the fetch: the guard
`if (!inputMessage.trim() || isLoading) return;` and, when it passes,
appending the user message, clearing the input, setting isLoading and
issuing the POST /chat request. -/
def handleSendStart (env : Option String) (s : ChatState) (t1 : Nat) :
    ChatState × Option ChatRequest :=
  if jsTrim s.inputMessage = "" ∨ s.isLoading = true then
    (s, none)
  else
    ({ messages := s.messages ++ [⟨s.inputMessage, Sender.user, t1⟩],
       inputMessage := "",
       isLoading := true,
       isServerAwake := s.isServerAwake },
     some ⟨API_URL env ++ "/chat", "POST", "application/json",
           ⟨s.inputMessage⟩⟩)

/-- Message.text of the ai reply on the success path:
`data.answer || 'Sorry, I could not process your request.'`. -/
def answerText (ans : Option JsValue) : String :=
  match ans with
  | some v =>
      if jsTruthy v then jsDisplay v
      else "Sorry, I could not process your request."
  | none => "Sorry, I could not process your request."

/-- The asynchronous continuation of `handleSendMessage`: the try branch
past the fetch (non-ok throws), the catch branch (console.error and the
fixed error message) and the finally branch (setIsLoading(false)).
Returns the updated state and the console log entries. -/
def handleSendComplete (s : ChatState) (o : ChatOutcome) (t2 : Nat) :
    ChatState × List String :=
  match o with
  | ChatOutcome.ok ans =>
      ({ s with
          messages := s.messages ++ [⟨answerText ans, Sender.ai, t2⟩],
          isLoading := false }, [])
  | _ =>
      ({ s with
          messages := s.messages ++
            [⟨"Sorry, there was an error processing your request. Please try again.",
              Sender.ai, t2⟩],
          isLoading := false }, ["Error"])

/-- A whole `handleSendMessage` cycle: the synchronous start followed,
when a request was actually issued, by the completion for outcome `o`. -/
def handleSendMessage (env : Option String) (s : ChatState)
    (o : ChatOutcome) (t1 t2 : Nat) : SendResult :=
  match handleSendStart env s t1 with
  | (s1, none) => ⟨s1, [], []⟩
  | (s1, some r) =>
      let (s2, lg) := handleSendComplete s1 o t2
      ⟨s2, [r], lg⟩

/-- Outcome of the GET /ping fetch in `wakeUpServer`: rejection, or a
response with its `response.ok` flag. -/
inductive PingOutcome where
  | netErr
  | resp (ok : Bool)
deriving DecidableEq, Repr

/-- The `wakeUpServer` effect run once on mount: on an ok response set
isServerAwake and log; on a non-ok response do nothing; on rejection
only log.  Returns the updated state and the console log entries. -/
def wakeUpServer (s : ChatState) (o : PingOutcome) :
    ChatState × List String :=
  match o with
  | PingOutcome.resp true =>
      ({ s with isServerAwake := true }, ["Server is awake"])
  | PingOutcome.resp false => (s, [])
  | PingOutcome.netErr =>
      (s, ["Server is starting up, might take a minute..."])

/-- setInputMessage, as called from onChange and the suggestion
buttons: a pure state update. -/
def setInputMessage (s : ChatState) (t : String) : ChatState :=
  { s with inputMessage := t }

/-!
Session-level semantics.  A session starts on mount with the one-shot
readiness probe, then evolves by user events: a submission start, the
completion of the in-flight request (only possible while isLoading), or
an input edit (onChange or a suggestion button).
-/

/-- One UI/event transition of the mounted component. -/
inductive Step : ChatState → ChatState → Prop
  | start (env : Option String) (s : ChatState) (t1 : Nat) :
      Step s (handleSendStart env s t1).1
  | complete (s : ChatState) (o : ChatOutcome) (t2 : Nat) :
      s.isLoading = true → Step s (handleSendComplete s o t2).1
  | input (s : ChatState) (t : String) :
      Step s (setInputMessage s t)

/-- States reachable in a session: the probe outcome is applied to the
mount state, then any number of steps. -/
def Reachable (s : ChatState) : Prop :=
  ∃ po : PingOutcome,
    Relation.ReflTransGen Step (wakeUpServer initState po).1 s

/-- The sender opposite to a given one. -/
def Sender.other : Sender → Sender
  | Sender.user => Sender.ai
  | Sender.ai => Sender.user

/-- Senders of the transcript alternate, the first being `e`. -/
def altOk : Sender → List Message → Bool
  | _, [] => true
  | e, m :: rest => m.sender == e && altOk e.other rest

/-- Number of transcript messages with sender `e`. -/
def countMsgs (e : Sender) (l : List Message) : Nat :=
  (l.filter (fun m => m.sender == e)).length

theorem Sender.other_other (e : Sender) : e.other.other = e := by
  cases e <;> rfl

theorem altOk_append (e : Sender) (l : List Message) (m : Message) :
    altOk e (l ++ [m]) =
      (altOk e l &&
        m.sender == (if l.length % 2 = 0 then e else e.other)) := by
  induction l generalizing e with
  | nil => simp [altOk]
  | cons a rest ih =>
    rcases Nat.even_or_odd rest.length with h | h
    · have h0 : rest.length % 2 = 0 := Nat.even_iff.mp h
      have h1 : (rest.length + 1) % 2 = 1 := by omega
      simp [altOk, ih, h0, h1, Bool.and_assoc]
    · have h0 : rest.length % 2 = 1 := Nat.odd_iff.mp h
      have h1 : (rest.length + 1) % 2 = 0 := by omega
      simp [altOk, ih, h0, h1, Sender.other_other, Bool.and_assoc]

theorem countMsgs_append (e : Sender) (l : List Message) (m : Message) :
    countMsgs e (l ++ [m]) =
      countMsgs e l + (if m.sender == e then 1 else 0) := by
  by_cases h : m.sender == e <;>
    simp [countMsgs, List.filter_append, h]

/-- The transcript invariant maintained by every session step: senders
alternate starting from user; the parity of the transcript length, the
sender of the last message and the user/ai message counts are tied to
whether a request is in flight. -/
def SessionInv (s : ChatState) : Prop :=
  altOk Sender.user s.messages = true ∧
  s.messages.length % 2 = (if s.isLoading then 1 else 0) ∧
  (s.messages = [] ∨
    s.messages.getLast?.map Message.sender =
      some (if s.isLoading then Sender.user else Sender.ai)) ∧
  countMsgs Sender.user s.messages =
    countMsgs Sender.ai s.messages + (if s.isLoading then 1 else 0)

theorem sessionInv_start (env : Option String) (s : ChatState)
    (t1 : Nat) (h : SessionInv s) :
    SessionInv (handleSendStart env s t1).1 := by
  by_cases hc : jsTrim s.inputMessage = "" ∨ s.isLoading = true
  · simpa [handleSendStart, hc] using h
  · obtain ⟨ha, hp, _, hcnt⟩ := h
    have hload : s.isLoading = false := by
      rcases Bool.eq_false_or_eq_true s.isLoading with h' | h'
      · exact absurd (Or.inr h') hc
      · exact h'
    rw [hload] at hp hcnt
    simp at hp hcnt
    simp only [handleSendStart, if_neg hc]
    refine ⟨?_, ?_, ?_, ?_⟩
    · simp [altOk_append, hp, ha]
    · simp; omega
    · simp [List.getLast?_concat]
    · simp [countMsgs_append]; omega

theorem sessionInv_complete (s : ChatState) (o : ChatOutcome)
    (t2 : Nat) (hload : s.isLoading = true) (h : SessionInv s) :
    SessionInv (handleSendComplete s o t2).1 := by
  obtain ⟨ha, hp, _, hcnt⟩ := h
  rw [hload] at hp hcnt
  simp at hp hcnt
  have key : ∀ m : Message, m.sender = Sender.ai →
      SessionInv { s with messages := s.messages ++ [m],
                          isLoading := false } := by
    intro m hm
    refine ⟨?_, ?_, ?_, ?_⟩
    · simp [altOk_append, hp, ha, hm, Sender.other]
    · simp; omega
    · simp [List.getLast?_concat, hm]
    · simp [countMsgs_append, hm]; omega
  cases o with
  | ok ans => exact key _ rfl
  | networkError => exact key _ rfl
  | httpError => exact key _ rfl
  | badJson => exact key _ rfl

theorem sessionInv_step {s s' : ChatState} (h : Step s s')
    (hinv : SessionInv s) : SessionInv s' := by
  cases h with
  | start env _ t1 => exact sessionInv_start env s t1 hinv
  | complete _ o t2 hload => exact sessionInv_complete s o t2 hload hinv
  | input _ t => exact hinv

theorem step_isServerAwake {s s' : ChatState} (h : Step s s') :
    s'.isServerAwake = s.isServerAwake := by
  cases h with
  | start env _ t1 =>
    by_cases hc : jsTrim s.inputMessage = "" ∨ s.isLoading = true <;>
      simp [handleSendStart, hc]
  | complete _ o t2 hload => cases o <;> rfl
  | input _ t => rfl

theorem reach_sessionInv {s0 s : ChatState}
    (h : Relation.ReflTransGen Step s0 s) (h0 : SessionInv s0) :
    SessionInv s := by
  induction h with
  | refl => exact h0
  | tail _ hstep ih => exact sessionInv_step hstep ih

theorem reach_isServerAwake {s0 s : ChatState}
    (h : Relation.ReflTransGen Step s0 s) :
    s.isServerAwake = s0.isServerAwake := by
  induction h with
  | refl => rfl
  | tail _ hstep ih => rw [step_isServerAwake hstep, ih]

theorem sessionInv_init (po : PingOutcome) :
    SessionInv (wakeUpServer initState po).1 := by
  cases po with
  | netErr =>
    exact ⟨rfl, rfl, Or.inl rfl, rfl⟩
  | resp ok =>
    cases ok <;> exact ⟨rfl, rfl, Or.inl rfl, rfl⟩

theorem reachable_sessionInv {s : ChatState} (h : Reachable s) :
    SessionInv s := by
  obtain ⟨po, hr⟩ := h
  exact reach_sessionInv hr (sessionInv_init po)

/-- The reply text of a completed cycle as a function of the outcome:
the try branch stores `data.answer || fallback`, every failure path
stores the fixed error message. -/
def responseText : ChatOutcome → String
  | ChatOutcome.ok ans => answerText ans
  | _ => "Sorry, there was an error processing your request. Please try again."

theorem handleSendMessage_run (env : Option String) (s : ChatState)
    (o : ChatOutcome) (t1 t2 : Nat)
    (h1 : jsTrim s.inputMessage ≠ "") (h2 : s.isLoading = false) :
    handleSendMessage env s o t1 t2 =
      ⟨⟨s.messages ++ [⟨s.inputMessage, Sender.user, t1⟩,
          ⟨responseText o, Sender.ai, t2⟩],
        "", false, s.isServerAwake⟩,
       [⟨API_URL env ++ "/chat", "POST", "application/json",
         ⟨s.inputMessage⟩⟩],
       if o.isFailure = true then ["Error"] else []⟩ := by
  have hc : ¬(jsTrim s.inputMessage = "" ∨ s.isLoading = true) := by
    simp [h1, h2]
  cases o <;>
    simp [handleSendMessage, handleSendStart, hc, handleSendComplete,
      responseText, ChatOutcome.isFailure]

/-- Claim C1: for every submission that passes the guard (trimmed text
non-empty, not already loading), whatever the outcome of the request,
exactly one assistant message is appended after the user message and
isLoading (awaitingReply) is false when the cycle completes. -/
theorem claim_C1_exactly_one_reply (env : Option String) (s : ChatState)
    (o : ChatOutcome) (t1 t2 : Nat)
    (h1 : jsTrim s.inputMessage ≠ "") (h2 : s.isLoading = false) :
    (handleSendMessage env s o t1 t2).state.isLoading = false ∧
    ∃ m : Message, m.sender = Sender.ai ∧
      (handleSendMessage env s o t1 t2).state.messages =
        s.messages ++ [⟨s.inputMessage, Sender.user, t1⟩, m] := by
  rw [handleSendMessage_run env s o t1 t2 h1 h2]
  exact ⟨rfl, ⟨responseText o, Sender.ai, t2⟩, rfl, rfl⟩

theorem claim_C1_witness :
    (jsTrim (ChatState.mk [] "hi" false false).inputMessage ≠ "") ∧
    ((ChatState.mk [] "hi" false false).isLoading = false) ∧
    ((handleSendMessage none (ChatState.mk [] "hi" false false)
        ChatOutcome.networkError 0 1).state.isLoading = false ∧
     ∃ m : Message, m.sender = Sender.ai ∧
       (handleSendMessage none (ChatState.mk [] "hi" false false)
           ChatOutcome.networkError 0 1).state.messages =
         (ChatState.mk [] "hi" false false).messages ++
           [⟨(ChatState.mk [] "hi" false false).inputMessage,
             Sender.user, 0⟩, m]) :=
  ⟨by decide, rfl,
   claim_C1_exactly_one_reply none (ChatState.mk [] "hi" false false)
     ChatOutcome.networkError 0 1 (by decide) rfl⟩

/-- Claim C2, counterexample to the claim as stated: the 2xx body
`{answer: ""}` does contain an `answer` field, yet the appended
assistant message is the fallback notice and not the answer text "". -/
theorem claim_C2_counterexample :
    (handleSendMessage none
        (ChatState.mk [] "What kind of base layers should I bring?" false false)
        (ChatOutcome.ok (some (JsValue.jstr ""))) 0 1).state.messages =
      [⟨"What kind of base layers should I bring?", Sender.user, 0⟩,
       ⟨"Sorry, I could not process your request.", Sender.ai, 1⟩] ∧
    "Sorry, I could not process your request." ≠ "" :=
  ⟨by decide, by decide⟩

/-- Claim C2 (amended): for every submission whose request resolves 2xx
with a body whose answer field holds a non-empty string, the assistant
message appended carries exactly that answer text. -/
theorem claim_C2_answer_text (env : Option String) (s : ChatState)
    (a : String) (t1 t2 : Nat)
    (h1 : jsTrim s.inputMessage ≠ "") (h2 : s.isLoading = false)
    (ha : a ≠ "") :
    (handleSendMessage env s (ChatOutcome.ok (some (JsValue.jstr a)))
        t1 t2).state.messages =
      s.messages ++ [⟨s.inputMessage, Sender.user, t1⟩,
        ⟨a, Sender.ai, t2⟩] := by
  rw [handleSendMessage_run env s (ChatOutcome.ok (some (JsValue.jstr a)))
    t1 t2 h1 h2]
  simp [responseText, answerText, jsTruthy, jsDisplay, ha]

theorem claim_C2_witness :
    (jsTrim (ChatState.mk [] "What kind of base layers should I bring?"
        false false).inputMessage ≠ "") ∧
    ((ChatState.mk [] "What kind of base layers should I bring?"
        false false).isLoading = false) ∧
    ("Bring wool or synthetic layers." ≠ "") ∧
    (handleSendMessage none
        (ChatState.mk [] "What kind of base layers should I bring?" false false)
        (ChatOutcome.ok (some (JsValue.jstr "Bring wool or synthetic layers.")))
        0 1).state.messages =
      (ChatState.mk [] "What kind of base layers should I bring?"
        false false).messages ++
        [⟨(ChatState.mk [] "What kind of base layers should I bring?"
            false false).inputMessage, Sender.user, 0⟩,
         ⟨"Bring wool or synthetic layers.", Sender.ai, 1⟩] :=
  ⟨by decide, rfl, by decide,
   claim_C2_answer_text none
     (ChatState.mk [] "What kind of base layers should I bring?" false false)
     "Bring wool or synthetic layers." 0 1 (by decide) rfl (by decide)⟩

/-- Claim C3: a call made while a request is in flight, or whose input
trims to empty, changes nothing at all: same state (transcript,
pendingInput, awaitingReply), no request issued, nothing logged. -/
theorem claim_C3_guard_noop (env : Option String) (s : ChatState)
    (o : ChatOutcome) (t1 t2 : Nat)
    (h : s.isLoading = true ∨ jsTrim s.inputMessage = "") :
    handleSendMessage env s o t1 t2 = ⟨s, [], []⟩ := by
  have hc : jsTrim s.inputMessage = "" ∨ s.isLoading = true := h.symm
  simp [handleSendMessage, handleSendStart, hc]

theorem claim_C3_witness :
    ((ChatState.mk [] "   " false false).isLoading = true ∨
      jsTrim (ChatState.mk [] "   " false false).inputMessage = "") ∧
    handleSendMessage none (ChatState.mk [] "   " false false)
        ChatOutcome.networkError 0 1 =
      ⟨ChatState.mk [] "   " false false, [], []⟩ :=
  ⟨Or.inr (by decide),
   claim_C3_guard_noop none (ChatState.mk [] "   " false false)
     ChatOutcome.networkError 0 1 (Or.inr (by decide))⟩

/-- Claim C4: when the request ends in a transport failure, a non-2xx
status, or an unparsable body, the appended assistant message is exactly
the fixed error notice, the failure is logged (console.error), the
cycle still terminates normally (no exception escapes the handler) and
isLoading is cleared. -/
theorem claim_C4_error_reply (env : Option String) (s : ChatState)
    (o : ChatOutcome) (t1 t2 : Nat)
    (h1 : jsTrim s.inputMessage ≠ "") (h2 : s.isLoading = false)
    (h3 : o.isFailure = true) :
    (handleSendMessage env s o t1 t2).state.messages =
      s.messages ++ [⟨s.inputMessage, Sender.user, t1⟩,
        ⟨"Sorry, there was an error processing your request. Please try again.",
         Sender.ai, t2⟩] ∧
    (handleSendMessage env s o t1 t2).logs = ["Error"] ∧
    (handleSendMessage env s o t1 t2).state.isLoading = false := by
  rw [handleSendMessage_run env s o t1 t2 h1 h2]
  cases o with
  | ok ans => simp [ChatOutcome.isFailure] at h3
  | networkError => exact ⟨rfl, rfl, rfl⟩
  | httpError => exact ⟨rfl, rfl, rfl⟩
  | badJson => exact ⟨rfl, rfl, rfl⟩

theorem claim_C4_witness :
    (jsTrim (ChatState.mk [] "hi" false false).inputMessage ≠ "") ∧
    ((ChatState.mk [] "hi" false false).isLoading = false) ∧
    (ChatOutcome.httpError.isFailure = true) ∧
    ((handleSendMessage none (ChatState.mk [] "hi" false false)
        ChatOutcome.httpError 0 1).state.messages =
      (ChatState.mk [] "hi" false false).messages ++
        [⟨(ChatState.mk [] "hi" false false).inputMessage, Sender.user, 0⟩,
         ⟨"Sorry, there was an error processing your request. Please try again.",
          Sender.ai, 1⟩] ∧
     (handleSendMessage none (ChatState.mk [] "hi" false false)
        ChatOutcome.httpError 0 1).logs = ["Error"] ∧
     (handleSendMessage none (ChatState.mk [] "hi" false false)
        ChatOutcome.httpError 0 1).state.isLoading = false) :=
  ⟨by decide, rfl, rfl,
   claim_C4_error_reply none (ChatState.mk [] "hi" false false)
     ChatOutcome.httpError 0 1 (by decide) rfl rfl⟩

/-- Claim C5: a 2xx response whose body has no `answer` field yields the
fixed fallback notice as the assistant message. -/
theorem claim_C5_missing_answer (env : Option String) (s : ChatState)
    (t1 t2 : Nat)
    (h1 : jsTrim s.inputMessage ≠ "") (h2 : s.isLoading = false) :
    (handleSendMessage env s (ChatOutcome.ok none) t1 t2).state.messages =
      s.messages ++ [⟨s.inputMessage, Sender.user, t1⟩,
        ⟨"Sorry, I could not process your request.", Sender.ai, t2⟩] := by
  rw [handleSendMessage_run env s (ChatOutcome.ok none) t1 t2 h1 h2]
  simp [responseText, answerText]

theorem claim_C5_witness :
    (jsTrim (ChatState.mk [] "hi" false false).inputMessage ≠ "") ∧
    ((ChatState.mk [] "hi" false false).isLoading = false) ∧
    (handleSendMessage none (ChatState.mk [] "hi" false false)
        (ChatOutcome.ok none) 0 1).state.messages =
      (ChatState.mk [] "hi" false false).messages ++
        [⟨(ChatState.mk [] "hi" false false).inputMessage, Sender.user, 0⟩,
         ⟨"Sorry, I could not process your request.", Sender.ai, 1⟩] :=
  ⟨by decide, rfl,
   claim_C5_missing_answer none (ChatState.mk [] "hi" false false)
     0 1 (by decide) rfl⟩

/-- Claim C6: when the guard passes, synchronously with the call and
before any response: exactly one user message with the raw untrimmed
text and the current timestamp is appended, the input is cleared,
isLoading becomes true, and exactly one POST to API_URL/chat with JSON
body carrying the raw question is issued. -/
theorem claim_C6_sync_effects (env : Option String) (s : ChatState)
    (t1 : Nat)
    (h1 : jsTrim s.inputMessage ≠ "") (h2 : s.isLoading = false) :
    handleSendStart env s t1 =
      (⟨s.messages ++ [⟨s.inputMessage, Sender.user, t1⟩],
        "", true, s.isServerAwake⟩,
       some ⟨API_URL env ++ "/chat", "POST", "application/json",
             ⟨s.inputMessage⟩⟩) := by
  have hc : ¬(jsTrim s.inputMessage = "" ∨ s.isLoading = true) := by
    simp [h1, h2]
  simp [handleSendStart, hc]

theorem claim_C6_witness :
    (jsTrim (ChatState.mk [] " hi " false false).inputMessage ≠ "") ∧
    ((ChatState.mk [] " hi " false false).isLoading = false) ∧
    handleSendStart none (ChatState.mk [] " hi " false false) 0 =
      (⟨(ChatState.mk [] " hi " false false).messages ++
          [⟨(ChatState.mk [] " hi " false false).inputMessage,
            Sender.user, 0⟩],
        "", true, (ChatState.mk [] " hi " false false).isServerAwake⟩,
       some ⟨API_URL none ++ "/chat", "POST", "application/json",
             ⟨(ChatState.mk [] " hi " false false).inputMessage⟩⟩) :=
  ⟨by decide, rfl,
   claim_C6_sync_effects none (ChatState.mk [] " hi " false false) 0
     (by decide) rfl⟩

/-- Claim C7: the one-shot mount probe makes isServerAwake true exactly
when GET /ping resolved with an ok (2xx) response; on rejection or a
non-ok status it stays false, and it is never changed again by any later
step of the session (no retry, no error escaping the probe). -/
theorem claim_C7_ping_readiness (po : PingOutcome) (s : ChatState)
    (h : Relation.ReflTransGen Step (wakeUpServer initState po).1 s) :
    s.isServerAwake = true ↔ po = PingOutcome.resp true := by
  rw [reach_isServerAwake h]
  cases po with
  | netErr => simp [wakeUpServer, initState]
  | resp ok => cases ok <;> simp [wakeUpServer, initState]

theorem claim_C7_witness :
    ((wakeUpServer initState PingOutcome.netErr).1.isServerAwake = true ↔
      PingOutcome.netErr = PingOutcome.resp true) :=
  claim_C7_ping_readiness PingOutcome.netErr
    (wakeUpServer initState PingOutcome.netErr).1
    Relation.ReflTransGen.refl

/-- Claim C8: in every reachable state with no request in flight, the
transcript is empty or ends with an assistant message, and the user and
assistant messages are in exact one-to-one balance. -/
theorem claim_C8_no_dangling_user (s : ChatState) (h : Reachable s)
    (hl : s.isLoading = false) :
    (s.messages = [] ∨
      s.messages.getLast?.map Message.sender = some Sender.ai) ∧
    countMsgs Sender.user s.messages =
      countMsgs Sender.ai s.messages := by
  obtain ⟨_, _, h3, h4⟩ := reachable_sessionInv h
  rw [hl] at h3 h4
  simp only [Bool.false_eq_true, if_false] at h3 h4
  exact ⟨h3, h4⟩

theorem claim_C8_witness :
    Reachable initState ∧
    initState.isLoading = false ∧
    ((initState.messages = [] ∨
       initState.messages.getLast?.map Message.sender = some Sender.ai) ∧
     countMsgs Sender.user initState.messages =
       countMsgs Sender.ai initState.messages) :=
  ⟨⟨PingOutcome.netErr, Relation.ReflTransGen.refl⟩, rfl,
   claim_C8_no_dangling_user initState
     ⟨PingOutcome.netErr, Relation.ReflTransGen.refl⟩ rfl⟩

/-- Claim C9: in every reachable state the transcript senders strictly
alternate starting with a user message, and every step either leaves the
transcript unchanged or appends exactly one message at the end (never
removing or reordering), the result still alternating from user. -/
theorem claim_C9_alternation (s : ChatState) (h : Reachable s) :
    altOk Sender.user s.messages = true ∧
    ∀ s' : ChatState, Step s s' →
      altOk Sender.user s'.messages = true ∧
      ∃ t : List Message, s'.messages = s.messages ++ t ∧
        t.length ≤ 1 := by
  have hinv := reachable_sessionInv h
  refine ⟨hinv.1, ?_⟩
  intro s' hstep
  have hinv' := sessionInv_step hstep hinv
  refine ⟨hinv'.1, ?_⟩
  cases hstep with
  | start env _ t1 =>
    by_cases hc : jsTrim s.inputMessage = "" ∨ s.isLoading = true
    · exact ⟨[], by simp [handleSendStart, hc], by simp⟩
    · exact ⟨[⟨s.inputMessage, Sender.user, t1⟩],
        by simp [handleSendStart, hc], by simp⟩
  | complete _ o t2 hload =>
    cases o with
    | ok ans =>
      exact ⟨[⟨answerText ans, Sender.ai, t2⟩],
        by simp [handleSendComplete], by simp⟩
    | networkError =>
      exact ⟨[⟨"Sorry, there was an error processing your request. Please try again.",
          Sender.ai, t2⟩], by simp [handleSendComplete], by simp⟩
    | httpError =>
      exact ⟨[⟨"Sorry, there was an error processing your request. Please try again.",
          Sender.ai, t2⟩], by simp [handleSendComplete], by simp⟩
    | badJson =>
      exact ⟨[⟨"Sorry, there was an error processing your request. Please try again.",
          Sender.ai, t2⟩], by simp [handleSendComplete], by simp⟩
  | input _ t =>
    exact ⟨[], by simp [setInputMessage], by simp⟩

theorem claim_C9_witness :
    Reachable initState ∧
    (altOk Sender.user initState.messages = true ∧
     ∀ s' : ChatState, Step initState s' →
       altOk Sender.user s'.messages = true ∧
       ∃ t : List Message, s'.messages = initState.messages ++ t ∧
         t.length ≤ 1) :=
  ⟨⟨PingOutcome.netErr, Relation.ReflTransGen.refl⟩,
   claim_C9_alternation initState
     ⟨PingOutcome.netErr, Relation.ReflTransGen.refl⟩⟩

/-- Claim C10: a 2xx response whose `answer` field is present but holds
any falsy JSON value (empty string, null, 0, false) yields the fallback
notice, not the answer value, because `data.answer || fallback` selects
the fallback on every falsy value. -/
theorem claim_C10_falsy_answer (env : Option String) (s : ChatState)
    (v : JsValue) (t1 t2 : Nat)
    (h1 : jsTrim s.inputMessage ≠ "") (h2 : s.isLoading = false)
    (hv : jsTruthy v = false) :
    (handleSendMessage env s (ChatOutcome.ok (some v)) t1 t2).state.messages =
      s.messages ++ [⟨s.inputMessage, Sender.user, t1⟩,
        ⟨"Sorry, I could not process your request.", Sender.ai, t2⟩] := by
  rw [handleSendMessage_run env s (ChatOutcome.ok (some v)) t1 t2 h1 h2]
  simp [responseText, answerText, hv]

theorem claim_C10_witness :
    (jsTrim (ChatState.mk [] "hi" false false).inputMessage ≠ "") ∧
    ((ChatState.mk [] "hi" false false).isLoading = false) ∧
    (jsTruthy (JsValue.jstr "") = false) ∧
    (handleSendMessage none (ChatState.mk [] "hi" false false)
        (ChatOutcome.ok (some (JsValue.jstr ""))) 0 1).state.messages =
      (ChatState.mk [] "hi" false false).messages ++
        [⟨(ChatState.mk [] "hi" false false).inputMessage, Sender.user, 0⟩,
         ⟨"Sorry, I could not process your request.", Sender.ai, 1⟩] :=
  ⟨by decide, rfl, rfl,
   claim_C10_falsy_answer none (ChatState.mk [] "hi" false false)
     (JsValue.jstr "") 0 1 (by decide) rfl rfl⟩
